import Mathlib

/-!
Shallow embedding of `check-vpn.py`, a VPN watchdog script.

Python strings are modelled as `List Char` (the script is line-oriented
ASCII text); external OS commands (ping, traceroute, netstat, route, ps,
netstart, signal delivery) are modelled as oracle fields of an
`IterWorld` structure, one world per control-loop iteration.  Fallible
Python operations (exceptions) are modelled with `Except PyErr`.
-/

set_option autoImplicit false

/-- Python `str.isspace` characters relevant to `str.strip()`. -/
def pyIsSpace (c : Char) : Bool :=
  c == ' ' || c == '\t' || c == '\n' || c == '\r' || c == '\x0b' || c == '\x0c'

/-- Python `str.strip()`: drop whitespace from both ends. -/
def liStrip (l : List Char) : List Char :=
  ((l.dropWhile pyIsSpace).reverse.dropWhile pyIsSpace).reverse

/-- Python `sub in s` substring test. -/
def liContains (l sub : List Char) : Bool :=
  sub.isPrefixOf l ||
    match l with
    | [] => false
    | _ :: rest => liContains rest sub

/-- Python `str.lower()` (ASCII). -/
def pyLower (l : List Char) : List Char := l.map Char.toLower

/-- Python `s.split(' ', 1)`: split at the first space character;
`none` models the `ValueError` of unpacking a splitless result into two
variables. -/
def splitFirstSpace (l : List Char) : Option (List Char × List Char) :=
  match l with
  | [] => none
  | c :: rest =>
    if c = ' ' then some ([], rest)
    else (splitFirstSpace rest).map (fun p => (c :: p.1, p.2))

/-- Accumulator worker for whitespace splitting (Python `s.split()`). -/
def splitWsAux : List Char → List Char → List (List Char)
  | [], acc => if acc.isEmpty then [] else [acc.reverse]
  | c :: rest, acc =>
    if pyIsSpace c then
      if acc.isEmpty then splitWsAux rest [] else acc.reverse :: splitWsAux rest []
    else splitWsAux rest (c :: acc)

/-- Python `s.split()` (no argument): split on whitespace runs, no empties. -/
def pySplitWs (l : List Char) : List (List Char) := splitWsAux l []

/-- Digits of a decimal literal to a natural number. -/
def digitsToNat (l : List Char) : Nat :=
  l.foldl (fun a c => a * 10 + (c.toNat - 48)) 0

/-- Python `int(s)` on a decimal string: optional surrounding whitespace,
optional sign, at least one digit.  (Digit-grouping underscores are not
modelled; ps pid fields never contain them.) -/
def pyInt (l : List Char) : Option Int :=
  match liStrip l with
  | '-' :: ds => if !ds.isEmpty && ds.all Char.isDigit then some (-(digitsToNat ds : Int)) else none
  | '+' :: ds => if !ds.isEmpty && ds.all Char.isDigit then some ((digitsToNat ds : Int)) else none
  | ds => if !ds.isEmpty && ds.all Char.isDigit then some ((digitsToNat ds : Int)) else none

/-- Python exceptions that the script can raise or catch. -/
inductive PyErr where
  | indexError
  | valueError
  | keyError
  | typeError
  | processLookupError
  deriving DecidableEq, Repr

deriving instance DecidableEq for Except

/-! ## Config Parser (`parse_ovpn_config`) -/

/-- A value in the parsed config dict: a string, or Python `True` for
flag-only directives. -/
inductive CVal where
  | str (s : List Char)
  | pyTrue
  deriving DecidableEq, Repr

/-- Python dict lookup `d[k]` (as an option). -/
def dGet (d : List (List Char × CVal)) (k : List Char) : Option CVal :=
  match d with
  | [] => none
  | (k', v) :: rest => if k' = k then some v else dGet rest k

/-- Python dict assignment `d[k] = v`: overwrite in place or append. -/
def dUpdate (d : List (List Char × CVal)) (k : List Char) (v : CVal) :
    List (List Char × CVal) :=
  match d with
  | [] => [(k, v)]
  | (k', v') :: rest => if k' = k then (k, v) :: rest else (k', v') :: dUpdate rest k v

/-- Worker for `TAG_IN_PATTERN` / `TAG_OUT_PATTERN`: the `(.*)>$` part —
succeeds iff the list ends with `'>'`, returning everything before it. -/
def dropLastGt : List Char → Option (List Char)
  | [] => none
  | [c] => if c = '>' then some [] else none
  | c :: d :: rest => (dropLastGt (d :: rest)).map (List.cons c)

/-- Python regex `^</(.*)>$` (`TAG_OUT_PATTERN`): the captured group, if
the line matches. -/
def tagOutMatch (l : List Char) : Option (List Char) :=
  match l with
  | [] => none
  | [_] => none
  | c1 :: c2 :: rest => if c1 = '<' && c2 = '/' then dropLastGt rest else none

/-- Python regex `^<(.*)>$` (`TAG_IN_PATTERN`): the captured group, if
the line matches. -/
def tagInMatch (l : List Char) : Option (List Char) :=
  match l with
  | [] => none
  | c :: rest => if c = '<' then dropLastGt rest else none

/-- The parser's skip test: `line.startswith("#") or not line`. -/
def isSkip (line : List Char) : Bool :=
  match line with
  | [] => true
  | c :: _ => c = '#'

/-- The string currently accumulated for key `k`.  The open-tag branch
always initializes the entry to `str []`, so the `[]` default is never
taken while a tag is open. -/
def curStr (d : List (List Char × CVal)) (k : List Char) : List Char :=
  match dGet d k with
  | some (.str s) => s
  | _ => []

/-- Parser state: the dict built so far and the currently open tag. -/
structure PState where
  config : List (List Char × CVal)
  in_tag : Option (List Char)
  deriving DecidableEq, Repr

/-- One iteration of the parser's line loop in `parse_ovpn_config`. -/
def parseLine (st : PState) (raw : List Char) : PState :=
  let line := liStrip raw
  if isSkip line then st
  else
    match tagOutMatch line with
    | some _ => { st with in_tag := none }
    | none =>
      match tagInMatch line with
      | some t => ⟨dUpdate st.config t (.str []), some t⟩
      | none =>
        match st.in_tag with
        | some t => ⟨dUpdate st.config t (.str (curStr st.config t ++ line)), some t⟩
        | none =>
          match splitFirstSpace line with
          | none => ⟨dUpdate st.config line .pyTrue, none⟩
          | some (k, v) => ⟨dUpdate st.config k (.str v), none⟩

/-- `parse_ovpn_config` applied to the file's lines (`content.splitlines()`). -/
def parse_ovpn_config (lines : List (List Char)) : List (List Char × CVal) :=
  (lines.foldl parseLine ⟨[], none⟩).config

/-! ## Process Locator (`get_pid_by_str`) -/

/-- `get_pid_by_str` over the lines of `ps -A -o pid,command` output.
Mirrors the Python loop: only lines containing `"openvpn"` are
considered; each such line is stripped and split at the first space into
`pid, cmd` (`ValueError` if there is no space); the match test is
`search_str in cmd.lower()` — note the search string itself is NOT
lowercased by the source; on a match the pid field is parsed with
`int()` (`ValueError` if non-numeric). -/
def get_pid_by_str (search : List Char) (lines : List (List Char)) :
    Except PyErr (Option Int) :=
  match lines with
  | [] => .ok none
  | line :: rest =>
    if liContains line ("openvpn".data) then
      match splitFirstSpace (liStrip line) with
      | none => .error .valueError
      | some (pidStr, cmd) =>
        if liContains (pyLower cmd) search then
          match pyInt pidStr with
          | some n => .ok (some n)
          | none => .error .valueError
        else get_pid_by_str search rest
    else get_pid_by_str search rest

/-- Does a ps line satisfy the source's match test (openvpn line whose
lowercased command field contains the search string verbatim)? -/
def psLineHit (search line : List Char) : Bool :=
  liContains line ("openvpn".data) &&
    match splitFirstSpace (liStrip line) with
    | some p => liContains (pyLower p.2) search
    | none => false

/-- Declarative locator: pid of the first line in listing order passing
the source's match test. -/
def locatorSpec (search : List Char) (lines : List (List Char)) : Option Int :=
  (lines.find? (psLineHit search)).bind fun line =>
    (splitFirstSpace (liStrip line)).bind fun p => pyInt p.1

/-- Does a ps line satisfy a genuinely case-insensitive match test, as
the spec's words describe (both command line and search string folded)?
Used to compare the spec's description with the source. -/
def psLineHitCI (search line : List Char) : Bool :=
  liContains line ("openvpn".data) &&
    match splitFirstSpace (liStrip line) with
    | some p => liContains (pyLower p.2) (pyLower search)
    | none => false

/-- Declarative locator following the spec's words (case-insensitive
containment of the search substring). -/
def locatorCI (search : List Char) (lines : List (List Char)) : Option Int :=
  (lines.find? (psLineHitCI search)).bind fun line =>
    (splitFirstSpace (liStrip line)).bind fun p => pyInt p.1

/-- Well-formedness of a ps listing line: if it mentions openvpn, its
stripped form has a space and a numeric leading pid field. -/
def psLineOk (line : List Char) : Bool :=
  !liContains line ("openvpn".data) ||
    match splitFirstSpace (liStrip line) with
    | some p => (pyInt p.1).isSome
    | none => false

/-! ## External world oracles and events -/

/-- Observable actions the script performs on the outside world. -/
inductive Event where
  | ping (host : List Char)
  | trace (host : List Char)
  | routeDelete (dest : List Char)
  | netstart (iface : List Char)
  | sleep (n : Nat)
  | sigterm (pid : Int)
  deriving DecidableEq, Repr

/-- Oracle responses of the OS utilities for one loop iteration. -/
structure IterWorld where
  /-- lines of `ps -A -o pid,command` output -/
  psLines : List (List Char)
  /-- lines of `netstat -rn -finet` output -/
  routeTable : List (List Char)
  /-- per-destination exit status of `route delete` (true = returncode 0) -/
  routeDelOk : List Char → Bool
  /-- exit status of `sh /etc/netstart <iface>` -/
  netstartOk : Bool
  /-- per-host exit status of `ping -c 5 <host>` -/
  pingOk : List Char → Bool
  /-- per-host stdout of `traceroute -m 1 <host>` -/
  trOut : List Char → List Char
  /-- does the pid exist (false makes `os.kill` raise `ProcessLookupError`) -/
  alive : Int → Bool

/-- `DEFAULT_REMOTE_HOST = '4.2.2.2'`. -/
def DEFAULT_REMOTE_HOST : List Char := "4.2.2.2".data

/-! ## Connectivity Prober (`check_connection`, `get_route`, `run_vpn_checks`) -/

/-- `check_connection`: exit status of `ping -c 5 remote_host`. -/
def check_connection (w : IterWorld) (remote_host : List Char) : Bool :=
  w.pingOk remote_host

/-- `get_route`: second whitespace token of `traceroute -m 1 remote_host`
stdout (`out.split()[1]`); `IndexError` if there are fewer than two
tokens. -/
def get_route (w : IterWorld) (remote_host : List Char) : Except PyErr (List Char) :=
  match (pySplitWs (w.trOut remote_host)).get? 1 with
  | some r => .ok r
  | none => .error .indexError

/-- `run_vpn_checks`: ICMP check first; then, only if `route_prefix` is
truthy (non-empty; `None` from argparse is modelled as `[]` too), the
route check — which the source performs via `get_route()` with its
default argument, i.e. toward `DEFAULT_REMOTE_HOST`, not toward
`remote_host`.  Returns the events performed and the health verdict. -/
def run_vpn_checks (w : IterWorld) (remote_host routePfx : List Char) :
    Except PyErr (List Event × Bool) :=
  if !check_connection w remote_host then .ok ([.ping remote_host], false)
  else if routePfx.isEmpty then .ok ([.ping remote_host], true)
  else
    match get_route w DEFAULT_REMOTE_HOST with
    | .error e => .error e
    | .ok hop =>
      .ok ([.ping remote_host, .trace DEFAULT_REMOTE_HOST], routePfx.isPrefixOf hop)

/-- Concrete world for exercising the prober: ping always fails. -/
def c4w1 : IterWorld where
  psLines := []
  routeTable := []
  routeDelOk := fun _ => true
  netstartOk := true
  pingOk := fun _ => false
  trOut := fun _ => " 1  10.0.0.1  0.35 ms".data
  alive := fun _ => true

/-- Concrete world for exercising the prober: ping succeeds, first hop
`10.0.0.1`. -/
def c4w2 : IterWorld where
  psLines := []
  routeTable := []
  routeDelOk := fun _ => true
  netstartOk := true
  pingOk := fun _ => true
  trOut := fun _ => " 1  10.0.0.1  0.35 ms".data
  alive := fun _ => true

/-- Concrete world in which the first hop toward the default remote host
(`4.2.2.2`) differs from the first hop toward `8.8.8.8`. -/
def c1w : IterWorld where
  psLines := []
  routeTable := []
  routeDelOk := fun _ => true
  netstartOk := true
  pingOk := fun _ => true
  trOut := fun h =>
    if h = DEFAULT_REMOTE_HOST then " 1  192.168.0.1  0.41 ms".data
    else " 1  10.0.0.1  0.35 ms".data
  alive := fun _ => true

/-- Concrete world for exercising the control loop: no VPN client in the
process listing, launch succeeds, probe unhealthy. -/
def c3w : IterWorld where
  psLines := ["  PID COMMAND".data]
  routeTable := []
  routeDelOk := fun _ => true
  netstartOk := true
  pingOk := fun _ => false
  trOut := fun _ => " 1  10.8.0.1  0.35 ms".data
  alive := fun _ => true

/-- Concrete world: VPN client running and probe healthy. -/
def c5w1 : IterWorld where
  psLines := ["  PID COMMAND".data, "  4242 openvpn --config client.ovpn".data]
  routeTable := []
  routeDelOk := fun _ => true
  netstartOk := true
  pingOk := fun _ => true
  trOut := fun _ => " 1  10.8.0.1  0.35 ms".data
  alive := fun _ => true

/-- Concrete world for C8: one `tun0` route line, and `route delete`
always failing. -/
def c8w : IterWorld where
  psLines := []
  routeTable := ["10.8.0.0/24        10.8.0.1      UGS   tun0".data,
                 "default            192.168.0.1   UGS   em0".data]
  routeDelOk := fun _ => false
  netstartOk := true
  pingOk := fun _ => true
  trOut := fun _ => " 1  10.8.0.1  0.35 ms".data
  alive := fun _ => true

/-- Concrete world: no VPN client running and the bring-up script
failing. -/
def c5w2 : IterWorld where
  psLines := ["  PID COMMAND".data]
  routeTable := []
  routeDelOk := fun _ => true
  netstartOk := false
  pingOk := fun _ => true
  trOut := fun _ => " 1  10.8.0.1  0.35 ms".data
  alive := fun _ => true

/-! ## Route Cleaner (`delete_iface_routes`) -/

/-- Result of `delete_iface_routes`: the destinations passed to
`route delete` in order, the destinations whose delete exited non-zero
(logged as errors), and the returned success flag. -/
structure CleanResult where
  deletes : List (List Char)
  failedDeletes : List (List Char)
  success : Bool
  deriving DecidableEq, Repr

/-- The for-loop of `delete_iface_routes` over the routing-table lines:
for each line containing `iface`, issue `route delete` on the line's
first whitespace token (`line.split()[0]`, `IndexError` on a tokenless
line); a non-zero delete status is only logged. -/
def cleanRoutes (delOk : List Char → Bool) (tbl : List (List Char)) (iface : List Char) :
    Except PyErr (List (List Char) × List (List Char)) :=
  match tbl with
  | [] => .ok ([], [])
  | line :: rest =>
    if liContains line iface then
      match pySplitWs line with
      | [] => .error .indexError
      | route :: _ =>
        match cleanRoutes delOk rest iface with
        | .error e => .error e
        | .ok (ds, fs) =>
          .ok (route :: ds, if delOk route then fs else route :: fs)
    else cleanRoutes delOk rest iface

/-- `delete_iface_routes`: scan the routing table and delete matching
routes; the function returns `True` unconditionally. -/
def delete_iface_routes (w : IterWorld) (iface : List Char) : Except PyErr CleanResult :=
  match cleanRoutes w.routeDelOk w.routeTable iface with
  | .error e => .error e
  | .ok (ds, fs) => .ok ⟨ds, fs, true⟩

/-! ## VPN Launcher (`run_vpn`) and Process Terminator (`kill_vpn_client`) -/

/-- `run_vpn`: clear the interface's routes first (abort reporting
failure if that reports failure), then `sh /etc/netstart iface`;
success iff that exits zero. -/
def run_vpn (w : IterWorld) (iface : List Char) : Except PyErr (List Event × Bool) :=
  match delete_iface_routes w iface with
  | .error e => .error e
  | .ok res =>
    let ev := res.deletes.map Event.routeDelete
    if res.success = false then .ok (ev, false)
    else
      let ev := ev ++ [Event.netstart iface]
      if w.netstartOk then .ok (ev, true) else .ok (ev, false)

/-- `os.kill(pid, SIGTERM)`: raises `ProcessLookupError` when no such
process exists. -/
def osKill (alive : Int → Bool) (pid : Int) : Except PyErr Unit :=
  if alive pid then .ok () else .error .processLookupError

/-- `kill_vpn_client` on an integer pid: send SIGTERM, swallow
`ProcessLookupError`, then `time.sleep(5)`. -/
def kill_vpn_client (alive : Int → Bool) (pid : Int) : Except PyErr (List Event) :=
  match osKill alive pid with
  | .ok _ => .ok [.sigterm pid, .sleep 5]
  | .error .processLookupError => .ok [.sigterm pid, .sleep 5]
  | .error e => .error e

/-! ## Control loop (`main`) -/

/-- Outcome of one iteration of `main`'s while loop. -/
inductive IterOut where
  | exitCode (c : Int)
  | healthy
  | restart
  | crash (e : PyErr)
  deriving DecidableEq, Repr

/-- What one loop iteration did: events performed, the argument
`kill_vpn_client` was invoked with (if it was invoked), and the
iteration outcome. -/
structure IterRes where
  events : List Event
  killArg : Option (Option Int)
  out : IterOut
  deriving DecidableEq, Repr

/-- The `if not vpn_client_pid:` block of `main`: look up `config['dev']`
(`KeyError` if absent; a `True` flag value makes the `in` test inside
`delete_iface_routes` raise `TypeError`), run `run_vpn`, return exit
code 1 on launch failure, else `time.sleep(30)`. -/
def ensureRunning (w : IterWorld) (config : List (List Char × CVal))
    (pidOpt : Option Int) : List Event × Option IterOut :=
  if (match pidOpt with | none => true | some n => n == 0) then
    match dGet config ("dev".data) with
    | some (.str dev) =>
      match run_vpn w dev with
      | .error e => ([], some (.crash e))
      | .ok (ev, false) => (ev, some (.exitCode 1))
      | .ok (ev, true) => (ev ++ [.sleep 30], none)
    | some .pyTrue => ([], some (.crash .typeError))
    | none => ([], some (.crash .keyError))
  else ([], none)

/-- One iteration of `main`'s while loop.  Note the unhealthy branch
calls `kill_vpn_client(vpn_client_pid)` with the pid found at the START
of the iteration; when that is `None` (client was absent and was freshly
launched), `os.kill(None, SIGTERM)` raises `TypeError`. -/
def mainIter (w : IterWorld) (config : List (List Char × CVal))
    (cfgName remote_host routePfx : List Char) : IterRes :=
  match get_pid_by_str cfgName w.psLines with
  | .error e => ⟨[], none, .crash e⟩
  | .ok pidOpt =>
    match ensureRunning w config pidOpt with
    | (ev, some out) => ⟨ev, none, out⟩
    | (ev, none) =>
      match run_vpn_checks w remote_host routePfx with
      | .error e => ⟨ev, none, .crash e⟩
      | .ok (ev2, true) => ⟨ev ++ ev2, none, .healthy⟩
      | .ok (ev2, false) =>
        match pidOpt with
        | none => ⟨ev ++ ev2, some none, .crash .typeError⟩
        | some p =>
          match kill_vpn_client w.alive p with
          | .error e => ⟨ev ++ ev2, some (some p), .crash e⟩
          | .ok kev =>
            match dGet config ("dev".data) with
            | none => ⟨ev ++ ev2 ++ kev, some (some p), .crash .keyError⟩
            | some .pyTrue => ⟨ev ++ ev2 ++ kev, some (some p), .crash .typeError⟩
            | some (.str dev) =>
              match delete_iface_routes w dev with
              | .error e => ⟨ev ++ ev2 ++ kev, some (some p), .crash e⟩
              | .ok res =>
                ⟨ev ++ ev2 ++ kev ++ res.deletes.map Event.routeDelete,
                 some (some p), .restart⟩

/-- How `main` turns a non-`restart` iteration outcome into a program
result. -/
inductive MainRes where
  | exit (code : Int)
  | raised (e : PyErr)
  | fuelOut
  deriving DecidableEq, Repr

/-- Map an iteration outcome to the loop's final result, `none` meaning
the loop continues. -/
def stepRes : IterOut → Option MainRes
  | .exitCode c => some (.exit c)
  | .healthy => some (.exit 0)
  | .restart => none
  | .crash e => some (.raised e)

/-- `main`'s while loop, with iteration worlds `ws`, starting at
iteration index `i`, bounded by `fuel`; returns the result and the
number of iterations performed. -/
def mainLoop (ws : Nat → IterWorld) (config : List (List Char × CVal))
    (cfgName remote_host routePfx : List Char) (i : Nat) (fuel : Nat) : MainRes × Nat :=
  match fuel with
  | 0 => (.fuelOut, 0)
  | fuel + 1 =>
    match stepRes (mainIter (ws i) config cfgName remote_host routePfx).out with
    | some r => (r, 1)
    | none =>
      let p := mainLoop ws config cfgName remote_host routePfx (i + 1) fuel
      (p.1, p.2 + 1)

/-- `main` after argument parsing: open and parse the config file
(returning the OS errno as exit code when the file is missing, before
any loop iteration), then run the while loop.  Returns the program
result and the number of loop iterations performed. -/
def pyMain (ws : Nat → IterWorld) (cfgName remote_host routePfx : List Char)
    (file : Except Int (List (List Char))) (fuel : Nat) : MainRes × Nat :=
  match file with
  | .error e => (.exit e, 0)
  | .ok lines => mainLoop ws (parse_ovpn_config lines) cfgName remote_host routePfx 0 fuel

/-! ## Theorems -/

/-- A Python substring (`liContains`) only uses characters of the
larger string. -/
theorem liContains_subset (l sub : List Char) (h : liContains l sub = true) :
    ∀ c, c ∈ sub → c ∈ l := by
  induction l with
  | nil =>
    intro c hc
    unfold liContains at h
    simp at h
    rw [h] at hc
    cases hc
  | cons a rest ih =>
    intro c hc
    unfold liContains at h
    rcases Bool.or_eq_true_iff.mp h with h1 | h2
    · exact (List.isPrefixOf_iff_prefix.mp h1).subset hc
    · exact List.mem_cons.mpr (Or.inr (ih h2 c hc))

/-- `splitWsAux` never returns the empty list when the accumulator is
non-empty. -/
theorem splitWsAux_ne_nil_of_acc (l : List Char) :
    ∀ acc, acc ≠ [] → splitWsAux l acc ≠ [] := by
  induction l with
  | nil =>
    intro acc hacc
    unfold splitWsAux
    simp [hacc]
  | cons c rest ih =>
    intro acc hacc
    unfold splitWsAux
    cases hs : pyIsSpace c with
    | true =>
      have : acc.isEmpty = false := by
        cases acc with
        | nil => exact absurd rfl hacc
        | cons x xs => rfl
      simp [this]
    | false => simpa using ih (c :: acc) (by simp)

/-- Python `s.split()` is non-empty whenever `s` has a non-whitespace
character. -/
theorem pySplitWs_ne_nil (l : List Char) (c : Char) (hc : c ∈ l)
    (hcs : pyIsSpace c = false) : pySplitWs l ≠ [] := by
  unfold pySplitWs
  induction l with
  | nil => cases hc
  | cons a rest ih =>
    unfold splitWsAux
    cases hs : pyIsSpace a with
    | true =>
      have hcr : c ∈ rest := by
        rcases List.mem_cons.mp hc with h1 | h2
        · rw [h1] at hcs; rw [hcs] at hs; cases hs
        · exact h2
      cases he : ([] : List Char).isEmpty with
      | true =>
        simp only [he, if_true]
        exact ih hcr
      | false => cases he
    | false =>
      simp only [hs, Bool.false_eq_true, if_false]
      exact splitWsAux_ne_nil_of_acc rest [a] (by simp)

/-- The route-cleaning loop, characterized: one delete per matching
line, destination = the line's first whitespace token, failures only
logged. -/
theorem cleanRoutes_spec (delOk : List Char → Bool) (iface : List Char) (c : Char)
    (hc : c ∈ iface) (hcs : pyIsSpace c = false) :
    ∀ tbl : List (List Char),
      cleanRoutes delOk tbl iface =
        .ok ((tbl.filter (fun ln => liContains ln iface)).map (fun ln => (pySplitWs ln).headD []),
             ((tbl.filter (fun ln => liContains ln iface)).map
               (fun ln => (pySplitWs ln).headD [])).filter (fun r => !delOk r)) := by
  intro tbl
  induction tbl with
  | nil => rfl
  | cons line rest ih =>
    cases hm : liContains line iface with
    | false =>
      unfold cleanRoutes
      simp only [hm, Bool.false_eq_true, if_false, List.filter_cons, ih]
    | true =>
      have hcl : c ∈ line := liContains_subset line iface hm c hc
      have hne : pySplitWs line ≠ [] := pySplitWs_ne_nil line c hcl hcs
      cases hsp : pySplitWs line with
      | nil => exact absurd hsp hne
      | cons r t =>
        unfold cleanRoutes
        simp only [hm, if_true, hsp, ih, List.filter_cons, List.map_cons, List.headD_cons]
        cases hd : delOk r <;> simp [hd]

/-- C8: for every interface name (which, being an interface name,
contains a non-whitespace character) and every routing table, the Route
Cleaner issues exactly one delete per routing-table line mentioning the
interface, using that line's first whitespace-separated field as the
destination, records (only) a log entry for each failed delete, and
reports success `true` regardless of the per-delete exit statuses. -/
theorem c8_cleaner_best_effort :
    ∀ (w : IterWorld) (iface : List Char) (c : Char),
      c ∈ iface → pyIsSpace c = false →
      delete_iface_routes w iface =
        .ok ⟨(w.routeTable.filter (fun ln => liContains ln iface)).map
               (fun ln => (pySplitWs ln).headD []),
             ((w.routeTable.filter (fun ln => liContains ln iface)).map
               (fun ln => (pySplitWs ln).headD [])).filter (fun r => !w.routeDelOk r),
             true⟩ := by
  intro w iface c hc hcs
  unfold delete_iface_routes
  rw [cleanRoutes_spec w.routeDelOk iface c hc hcs w.routeTable]

/-- Witness for C8: exactly one delete (the matching line's first
field `10.8.0.0/24`), that delete fails, and success is still `true`. -/
theorem c8_cleaner_best_effort_witness :
    ('t' ∈ ("tun0".data) ∧ pyIsSpace 't' = false) ∧
    delete_iface_routes c8w ("tun0".data) =
      .ok ⟨["10.8.0.0/24".data], ["10.8.0.0/24".data], true⟩ :=
  ⟨⟨by decide, by decide⟩, by
    have h := c8_cleaner_best_effort c8w ("tun0".data) 't' (by decide) (by decide)
    rw [h]; decide⟩

/-- C9: for every pid, `kill_vpn_client` sends the termination signal,
treats a non-existent process as success (the `ProcessLookupError` is
swallowed), never raises, and always performs the fixed 5-unit grace
sleep after the signal. -/
theorem c9_terminate_never_raises :
    ∀ (alive : Int → Bool) (pid : Int),
      kill_vpn_client alive pid = .ok [Event.sigterm pid, Event.sleep 5] := by
  intro alive pid
  unfold kill_vpn_client osKill
  cases h : alive pid <;> simp [h]

/-- C4: the probe reports healthy only if the ICMP check and (when a
prefix is configured) the route check both pass; when ICMP fails the
trace is never performed and the result is unhealthy; when ICMP succeeds
with no prefix configured the result is healthy with no trace. -/
theorem c4_prober_gating :
    (∀ (w : IterWorld) (rh pfx : List Char), w.pingOk rh = false →
      run_vpn_checks w rh pfx = .ok ([Event.ping rh], false)) ∧
    (∀ (w : IterWorld) (rh : List Char), w.pingOk rh = true →
      run_vpn_checks w rh [] = .ok ([Event.ping rh], true)) ∧
    (∀ (w : IterWorld) (rh pfx : List Char) (ev : List Event),
      run_vpn_checks w rh pfx = .ok (ev, true) →
      w.pingOk rh = true ∧
      (pfx ≠ [] → ∃ hop, get_route w DEFAULT_REMOTE_HOST = .ok hop ∧
        pfx.isPrefixOf hop = true)) := by
  refine ⟨?_, ?_, ?_⟩
  · intro w rh pfx h
    unfold run_vpn_checks check_connection
    simp [h]
  · intro w rh h
    unfold run_vpn_checks check_connection
    simp [h]
  · intro w rh pfx ev h
    unfold run_vpn_checks check_connection at h
    cases hp : w.pingOk rh with
    | false => simp [hp] at h
    | true =>
      refine ⟨rfl, ?_⟩
      intro hne
      have hpe : pfx.isEmpty = false := by
        cases pfx with
        | nil => exact absurd rfl hne
        | cons a l => rfl
      cases hr : get_route w DEFAULT_REMOTE_HOST with
      | error e => simp [hp, hpe, hr] at h
      | ok hop =>
        simp [hp, hpe, hr] at h
        refine ⟨hop, rfl, ?_⟩
        simpa using h.2

/-- Witness for C4 at concrete inputs. -/
theorem c4_prober_gating_witness :
    (c4w1.pingOk ("4.2.2.2".data) = false ∧
      run_vpn_checks c4w1 ("4.2.2.2".data) ("10.".data) = .ok ([Event.ping ("4.2.2.2".data)], false)) ∧
    (c4w2.pingOk ("4.2.2.2".data) = true ∧
      run_vpn_checks c4w2 ("4.2.2.2".data) [] = .ok ([Event.ping ("4.2.2.2".data)], true)) ∧
    (c4w2.pingOk ("4.2.2.2".data) = true ∧
      (("10.".data ≠ ([] : List Char)) → ∃ hop, get_route c4w2 DEFAULT_REMOTE_HOST = .ok hop ∧
        ("10.".data).isPrefixOf hop = true)) :=
  ⟨⟨by decide, c4_prober_gating.1 c4w1 ("4.2.2.2".data) ("10.".data) (by decide)⟩,
   ⟨by decide, c4_prober_gating.2.1 c4w2 ("4.2.2.2".data) (by decide)⟩,
   c4_prober_gating.2.2 c4w2 ("4.2.2.2".data) ("10.".data)
     [Event.ping ("4.2.2.2".data), Event.trace DEFAULT_REMOTE_HOST] (by decide)⟩

/-- C1 counterexample: probing remote host `8.8.8.8` with configured
route prefix `10.`.  The ICMP check succeeds and the first hop toward
that same remote host is `10.0.0.1`, which starts with the prefix — yet
the probe reports unhealthy, because the source's `run_vpn_checks`
invokes `get_route()` with its default argument and therefore traces
toward `4.2.2.2` (first hop `192.168.0.1`).  This refutes the claim that
the traced host is the one passed to the probe. -/
theorem c1_route_target_cex :
    check_connection c1w ("8.8.8.8".data) = true ∧
    get_route c1w ("8.8.8.8".data) = .ok ("10.0.0.1".data) ∧
    ("10.".data).isPrefixOf ("10.0.0.1".data) = true ∧
    run_vpn_checks c1w ("8.8.8.8".data) ("10.".data) =
      .ok ([Event.ping ("8.8.8.8".data), Event.trace DEFAULT_REMOTE_HOST], false) := by
  refine ⟨by decide, by decide, by decide, by decide⟩

/-- C1 (amended): with a non-empty configured prefix and a successful
ICMP check, the prober traces the first hop toward the FIXED DEFAULT
remote host `4.2.2.2` (regardless of the `remote_host` argument) and
reports healthy exactly when that hop's text starts with the prefix. -/
theorem c1_route_toward_default :
    ∀ (w : IterWorld) (rh pfx hop : List Char),
      w.pingOk rh = true → pfx ≠ [] →
      get_route w DEFAULT_REMOTE_HOST = .ok hop →
      run_vpn_checks w rh pfx =
        .ok ([Event.ping rh, Event.trace DEFAULT_REMOTE_HOST], pfx.isPrefixOf hop) := by
  intro w rh pfx hop hping hne hroute
  have hpe : pfx.isEmpty = false := by
    cases pfx with
    | nil => exact absurd rfl hne
    | cons a l => rfl
  unfold run_vpn_checks check_connection
  simp [hping, hpe, hroute]

/-- Witness for the amended C1 at concrete inputs (healthy with prefix
`192.`, since the default-host hop is `192.168.0.1`). -/
theorem c1_route_toward_default_witness :
    c1w.pingOk ("8.8.8.8".data) = true ∧
    ("192.".data ≠ ([] : List Char)) ∧
    get_route c1w DEFAULT_REMOTE_HOST = .ok ("192.168.0.1".data) ∧
    run_vpn_checks c1w ("8.8.8.8".data) ("192.".data) =
      .ok ([Event.ping ("8.8.8.8".data), Event.trace DEFAULT_REMOTE_HOST],
        ("192.".data).isPrefixOf ("192.168.0.1".data)) :=
  ⟨by decide, by decide, by decide,
   c1_route_toward_default c1w ("8.8.8.8".data) ("192.".data) ("192.168.0.1".data)
     (by decide) (by decide) (by decide)⟩

/-- C2 counterexample: the listing holds the single line
`123 openvpn foo`, and the search substring is `FOO`.  Case-insensitively
the substring appears in the command line (as the spec-worded locator
`locatorCI` agrees, returning pid 123), yet `get_pid_by_str` returns
`None`: the source lowercases only the command line, never the search
string, so `"FOO" in "openvpn foo"` fails. -/
theorem c2_locator_case_cex :
    locatorCI ("FOO".data) ["123 openvpn foo".data] = some 123 ∧
    get_pid_by_str ("FOO".data) ["123 openvpn foo".data] = .ok none := by
  refine ⟨by decide, by decide⟩

/-- C2 (amended): on well-formed ps listings, the Process Locator
considers only lines mentioning the VPN client binary (`openvpn`),
matches the search substring VERBATIM against the lowercased command
line (case-insensitive only with respect to the command line's casing —
a search substring containing uppercase never matches), and returns the
numeric pid of the first matching line in listing order, or `None`. -/
theorem c2_locator_first_match :
    ∀ (search : List Char) (lines : List (List Char)),
      (∀ l ∈ lines, psLineOk l = true) →
      get_pid_by_str search lines = .ok (locatorSpec search lines) := by
  intro search lines
  induction lines with
  | nil => intro _; rfl
  | cons line rest ih =>
    intro hwf
    have hline := hwf line (List.mem_cons_self _ _)
    have hrest : ∀ l ∈ rest, psLineOk l = true :=
      fun l hl => hwf l (List.mem_cons.mpr (Or.inr hl))
    cases ho : liContains line ("openvpn".data) with
    | false =>
      have hhit : psLineHit search line = false := by
        unfold psLineHit
        simp [ho]
      unfold get_pid_by_str
      simp only [ho, Bool.false_eq_true, if_false]
      rw [ih hrest]
      unfold locatorSpec
      rw [List.find?_cons_of_neg _ (by simp [hhit])]
    | true =>
      unfold psLineOk at hline
      rw [ho] at hline
      simp only [Bool.not_true, Bool.false_or] at hline
      cases hsp : splitFirstSpace (liStrip line) with
      | none => rw [hsp] at hline; cases hline
      | some p =>
        obtain ⟨p1, p2⟩ := p
        rw [hsp] at hline
        obtain ⟨n, hn⟩ := Option.isSome_iff_exists.mp hline
        cases hm : liContains (pyLower p2) search with
        | false =>
          have hhit : psLineHit search line = false := by
            unfold psLineHit
            rw [ho, hsp]
            simpa using hm
          unfold get_pid_by_str
          simp only [ho, if_true, hsp, hm, Bool.false_eq_true, if_false]
          rw [ih hrest]
          unfold locatorSpec
          rw [List.find?_cons_of_neg _ (by simp [hhit])]
        | true =>
          have hhit : psLineHit search line = true := by
            unfold psLineHit
            rw [ho, hsp]
            simpa using hm
          unfold get_pid_by_str
          simp only [ho, if_true, hsp, hm, hn]
          unfold locatorSpec
          rw [List.find?_cons_of_pos _ (by simp [hhit])]
          simp [hsp, hn]

/-- Witness for the amended C2 on a realistic two-line listing. -/
theorem c2_locator_first_match_witness :
    (∀ l ∈ (["  PID COMMAND".data,
             "  4242 openvpn --config client.ovpn".data] : List (List Char)),
      psLineOk l = true) ∧
    get_pid_by_str ("client.ovpn".data)
        ["  PID COMMAND".data, "  4242 openvpn --config client.ovpn".data] =
      .ok (some 4242) :=
  ⟨by decide, by
    have h := c2_locator_first_match ("client.ovpn".data)
      ["  PID COMMAND".data, "  4242 openvpn --config client.ovpn".data] (by decide)
    rw [h]; decide⟩

/-- C6: with a tag open, every raw line whose stripped form is
non-empty, not a comment, and not a tag line is appended — with no
separator — to the open block's accumulated value (and the tag stays
open); in particular the `<ca>`/`LINE1`/`LINE2`/`</ca>` file parses to
`config["ca"] = "LINE1LINE2"`. -/
theorem c6_block_concat :
    (∀ (cfg : List (List Char × CVal)) (t raw : List Char),
      isSkip (liStrip raw) = false →
      tagOutMatch (liStrip raw) = none →
      tagInMatch (liStrip raw) = none →
      parseLine ⟨cfg, some t⟩ raw =
        ⟨dUpdate cfg t (.str (curStr cfg t ++ liStrip raw)), some t⟩) ∧
    dGet (parse_ovpn_config ["<ca>".data, "LINE1".data, "LINE2".data, "</ca>".data]) ("ca".data)
      = some (.str ("LINE1LINE2".data)) := by
  constructor
  · intro cfg t raw h1 h2 h3
    simp [parseLine, h1, h2, h3]
  · decide

/-- Witness for C6: applying the append property with block `ca` holding
`LINE1` and incoming line `LINE2` yields `LINE1LINE2`. -/
theorem c6_block_concat_witness :
    isSkip (liStrip ("LINE2".data)) = false ∧
    tagOutMatch (liStrip ("LINE2".data)) = none ∧
    tagInMatch (liStrip ("LINE2".data)) = none ∧
    parseLine ⟨[("ca".data, .str ("LINE1".data))], some ("ca".data)⟩ ("LINE2".data) =
      ⟨[("ca".data, .str ("LINE1LINE2".data))], some ("ca".data)⟩ :=
  ⟨by decide, by decide, by decide, by
    have h := c6_block_concat.1 [("ca".data, CVal.str ("LINE1".data))] ("ca".data)
      ("LINE2".data) (by decide) (by decide) (by decide)
    rw [h]; decide⟩

/-- `dropLastGt` strips exactly a final `'>'`. -/
theorem dropLastGt_append (l : List Char) : dropLastGt (l ++ ['>']) = some l := by
  induction l with
  | nil => simp [dropLastGt]
  | cons a tl ih =>
    cases tl with
    | nil => simp [dropLastGt]
    | cons b tl' =>
      have e : dropLastGt ((a :: b :: tl') ++ ['>'])
          = (dropLastGt ((b :: tl') ++ ['>'])).map (List.cons a) := rfl
      rw [e, ih]
      rfl

/-- `liStrip` is the identity on a line of the form `<...>` (non-space
characters at both ends). -/
theorem liStrip_tag (l : List Char) : liStrip ('<' :: (l ++ ['>'])) = '<' :: (l ++ ['>']) := by
  have h1 : pyIsSpace '<' = false := by decide
  have h2 : pyIsSpace '>' = false := by decide
  unfold liStrip
  simp [List.dropWhile_cons, h1, h2, List.reverse_append, List.cons_append]

/-- C10: a closing-tag line `</name>` closes whichever block is open,
for EVERY `name` (no comparison against the open block's name), leaving
the dict untouched; an opening-tag line `<name>` while block `t` is
open switches accumulation to `name` and resets `config[name]` to the
empty string — `dUpdate` overwrites, as the third conjunct states. -/
theorem c10_close_any_open_reset :
    (∀ (cfg : List (List Char × CVal)) (t name : List Char),
      parseLine ⟨cfg, some t⟩ ('<' :: '/' :: (name ++ ['>'])) = ⟨cfg, none⟩) ∧
    (∀ (cfg : List (List Char × CVal)) (t name : List Char),
      name.head? ≠ some '/' →
      parseLine ⟨cfg, some t⟩ ('<' :: (name ++ ['>'])) =
        ⟨dUpdate cfg name (.str []), some name⟩) ∧
    (∀ (d : List (List Char × CVal)) (k : List Char) (v : CVal),
      dGet (dUpdate d k v) k = some v) := by
  refine ⟨?_, ?_, ?_⟩
  · intro cfg t name
    have hs : liStrip ('<' :: '/' :: (name ++ ['>'])) = '<' :: '/' :: (name ++ ['>']) := by
      have h := liStrip_tag ('/' :: name)
      simpa using h
    have hskip : isSkip ('<' :: '/' :: (name ++ ['>'])) = false := rfl
    have hout : tagOutMatch ('<' :: '/' :: (name ++ ['>'])) = some name := by
      have e : tagOutMatch ('<' :: '/' :: (name ++ ['>'])) = dropLastGt (name ++ ['>']) := rfl
      rw [e, dropLastGt_append]
    simp only [parseLine, hs, hskip, hout, Bool.false_eq_true, if_false]
  · intro cfg t name hname
    have hs := liStrip_tag name
    have hskip : isSkip ('<' :: (name ++ ['>'])) = false := rfl
    have hout : tagOutMatch ('<' :: (name ++ ['>'])) = none := by
      cases name with
      | nil => rfl
      | cons a tl =>
        have ha : a ≠ '/' := by
          intro h
          exact hname (by rw [List.head?_cons, h])
        have e : tagOutMatch ('<' :: a :: (tl ++ ['>']))
            = if ('<' = '<' && a = '/') then dropLastGt (tl ++ ['>']) else none := rfl
        rw [List.cons_append, e]
        simp [ha]
    have hin : tagInMatch ('<' :: (name ++ ['>'])) = some name := by
      have e : tagInMatch ('<' :: (name ++ ['>'])) = dropLastGt (name ++ ['>']) := rfl
      rw [e, dropLastGt_append]
    simp only [parseLine, hs, hskip, hout, hin, Bool.false_eq_true, if_false]
  · intro d k v
    induction d with
    | nil => simp [dUpdate, dGet]
    | cons p rest ih =>
      obtain ⟨k', v'⟩ := p
      by_cases h : k' = k
      · simp [dUpdate, dGet, h]
      · simp [dUpdate, dGet, h, ih]

/-- Witness for C10: `</cert>` closes an open `ca` block; `<cert>` while
`ca` is open switches to `cert` and resets its previously accumulated
value `OLD` to empty. -/
theorem c10_close_any_open_reset_witness :
    parseLine ⟨[("ca".data, .str ("X".data))], some ("ca".data)⟩ ("</cert>".data) =
      ⟨[("ca".data, .str ("X".data))], none⟩ ∧
    (("cert".data).head? ≠ some '/') ∧
    parseLine ⟨[("cert".data, .str ("OLD".data))], some ("ca".data)⟩ ("<cert>".data) =
      ⟨[("cert".data, .str [])], some ("cert".data)⟩ ∧
    dGet (dUpdate [("cert".data, CVal.str ("OLD".data))] ("cert".data) (.str [])) ("cert".data)
      = some (.str []) :=
  ⟨by
    have h := c10_close_any_open_reset.1 [("ca".data, CVal.str ("X".data))] ("ca".data) ("cert".data)
    rw [show ("</cert>".data) = '<' :: '/' :: ("cert".data ++ ['>']) from by decide]
    exact h,
   by decide,
   by
    have h := c10_close_any_open_reset.2.1 [("cert".data, CVal.str ("OLD".data))] ("ca".data)
      ("cert".data) (by decide)
    rw [show ("<cert>".data) = '<' :: ("cert".data ++ ['>']) from by decide]
    rw [h]; decide,
   c10_close_any_open_reset.2.2 [("cert".data, CVal.str ("OLD".data))] ("cert".data) (.str [])⟩

/-- C7: `splitFirstSpace` returns `none` exactly on space-free text and
otherwise splits at the first space into the directive name and the
rest of the line; outside a tagged block the parser stores the remainder
as the value, or Python `True` when the line has no space. -/
theorem c7_directive_split :
    (∀ (l : List Char), splitFirstSpace l = none ↔ ' ' ∉ l) ∧
    (∀ (l k v : List Char), splitFirstSpace l = some (k, v) →
      l = k ++ ' ' :: v ∧ ' ' ∉ k) ∧
    (∀ (cfg : List (List Char × CVal)) (raw : List Char),
      isSkip (liStrip raw) = false →
      tagOutMatch (liStrip raw) = none →
      tagInMatch (liStrip raw) = none →
      (splitFirstSpace (liStrip raw) = none →
        parseLine ⟨cfg, none⟩ raw = ⟨dUpdate cfg (liStrip raw) .pyTrue, none⟩) ∧
      (∀ k v, splitFirstSpace (liStrip raw) = some (k, v) →
        parseLine ⟨cfg, none⟩ raw = ⟨dUpdate cfg k (.str v), none⟩)) := by
  refine ⟨?_, ?_, ?_⟩
  · intro l
    induction l with
    | nil => simp [splitFirstSpace]
    | cons c rest ih =>
      by_cases hc : c = ' '
      · subst hc; simp [splitFirstSpace]
      · unfold splitFirstSpace
        rw [if_neg hc]
        constructor
        · intro h hmem
          have hnone : splitFirstSpace rest = none := by
            cases hsp : splitFirstSpace rest with
            | none => rfl
            | some p => rw [hsp] at h; cases h
          rcases List.mem_cons.mp hmem with h1 | h2
          · exact hc h1.symm
          · exact (ih.mp hnone) h2
        · intro h
          have hnr : ' ' ∉ rest := fun hm => h (List.mem_cons.mpr (Or.inr hm))
          rw [ih.mpr hnr]
          rfl
  · intro l
    induction l with
    | nil => intro k v h; simp [splitFirstSpace] at h
    | cons c rest ih =>
      intro k v h
      by_cases hc : c = ' '
      · subst hc
        have he : splitFirstSpace (' ' :: rest) = some ([], rest) := by
          simp [splitFirstSpace]
        rw [he] at h
        injection h with h'
        injection h' with hk hv
        subst hk; subst hv
        simp
      · cases hsp : splitFirstSpace rest with
        | none =>
          unfold splitFirstSpace at h
          rw [if_neg hc, hsp] at h
          cases h
        | some p =>
          unfold splitFirstSpace at h
          rw [if_neg hc, hsp] at h
          injection h with h'
          injection h' with hk hv
          subst hk; subst hv
          obtain ⟨h1, h2⟩ := ih p.1 p.2 (by rw [hsp])
          constructor
          · rw [List.cons_append, ← h1]
          · intro hmem
            rcases List.mem_cons.mp hmem with h3 | h4
            · exact hc h3.symm
            · exact h2 h4
  · intro cfg raw h1 h2 h3
    constructor
    · intro hs
      simp [parseLine, h1, h2, h3, hs]
    · intro k v hs
      simp [parseLine, h1, h2, h3, hs]

/-- Witness for C7 on the flag line `persist-tun` and the directive
line `dev tun0`. -/
theorem c7_directive_split_witness :
    (splitFirstSpace ("persist-tun".data) = none ∧ ' ' ∉ ("persist-tun".data)) ∧
    ("dev tun0".data = "dev".data ++ ' ' :: "tun0".data ∧ ' ' ∉ ("dev".data)) ∧
    parseLine ⟨[], none⟩ ("persist-tun".data) = ⟨[("persist-tun".data, .pyTrue)], none⟩ ∧
    parseLine ⟨[], none⟩ ("dev tun0".data) = ⟨[("dev".data, .str ("tun0".data))], none⟩ :=
  ⟨⟨by decide, (c7_directive_split.1 ("persist-tun".data)).mp (by decide)⟩,
   c7_directive_split.2.1 ("dev tun0".data) ("dev".data) ("tun0".data) (by decide),
   by
    have h := (c7_directive_split.2.2 [] ("persist-tun".data) (by decide) (by decide)
      (by decide)).1 (by decide)
    rw [h]; decide,
   by
    have h := (c7_directive_split.2.2 [] ("dev tun0".data) (by decide) (by decide)
      (by decide)).2 ("dev".data) ("tun0".data) (by decide)
    rw [h]; decide⟩

/-- C3: in an iteration where the locator found no running client
(`None`), the launch succeeded, and the probe reported unhealthy, the
Process Terminator is invoked with pid `None` — the locator's not-found
result from the start of the iteration — not with the pid of the
freshly started process (inside `kill_vpn_client`, `os.kill(None, ...)`
then raises `TypeError`). -/
theorem c3_kill_invoked_with_none :
    ∀ (w : IterWorld) (config : List (List Char × CVal))
      (cfgName rhost routePfx dev : List Char) (ev ev2 : List Event),
      get_pid_by_str cfgName w.psLines = .ok none →
      dGet config ("dev".data) = some (.str dev) →
      run_vpn w dev = .ok (ev, true) →
      run_vpn_checks w rhost routePfx = .ok (ev2, false) →
      (mainIter w config cfgName rhost routePfx).killArg = some none ∧
      (mainIter w config cfgName rhost routePfx).out = .crash .typeError := by
  intro w config cfgName rhost routePfx dev ev ev2 hpid hdev hrun hchecks
  unfold mainIter ensureRunning
  rw [hpid]
  simp only [hdev, hrun, hchecks]
  exact ⟨rfl, rfl⟩

/-- Witness for C3 at a concrete world and config. -/
theorem c3_kill_invoked_with_none_witness :
    get_pid_by_str ("client.ovpn".data) c3w.psLines = .ok none ∧
    dGet [("dev".data, CVal.str ("tun0".data))] ("dev".data) = some (.str ("tun0".data)) ∧
    run_vpn c3w ("tun0".data) = .ok ([Event.netstart ("tun0".data)], true) ∧
    run_vpn_checks c3w ("4.2.2.2".data) [] = .ok ([Event.ping ("4.2.2.2".data)], false) ∧
    (mainIter c3w [("dev".data, CVal.str ("tun0".data))]
      ("client.ovpn".data) ("4.2.2.2".data) []).killArg = some none :=
  ⟨by decide, by decide, by decide, by decide,
   (c3_kill_invoked_with_none c3w [("dev".data, CVal.str ("tun0".data))]
     ("client.ovpn".data) ("4.2.2.2".data) [] ("tun0".data)
     [Event.netstart ("tun0".data)] [Event.ping ("4.2.2.2".data)]
     (by decide) (by decide) (by decide) (by decide)).1⟩

/-- After `k` restart iterations, a non-`restart` iteration outcome at
index `k` determines the loop's result. -/
theorem mainLoop_reaches (ws : Nat → IterWorld) (config : List (List Char × CVal))
    (cfgName rhost routePfx : List Char) (r : MainRes) :
    ∀ (k i fuel : Nat), k < fuel →
      (∀ j, j < k → (mainIter (ws (i + j)) config cfgName rhost routePfx).out = .restart) →
      stepRes (mainIter (ws (i + k)) config cfgName rhost routePfx).out = some r →
      mainLoop ws config cfgName rhost routePfx i fuel = (r, k + 1) := by
  intro k
  induction k with
  | zero =>
    intro i fuel hf hres hstep
    cases fuel with
    | zero => cases hf
    | succ fuel' =>
      rw [Nat.add_zero] at hstep
      unfold mainLoop
      rw [hstep]
  | succ k' ih =>
    intro i fuel hf hres hstep
    cases fuel with
    | zero => cases hf
    | succ fuel' =>
      have h0 : (mainIter (ws i) config cfgName rhost routePfx).out = .restart := by
        have h := hres 0 (Nat.succ_pos k')
        rwa [Nat.add_zero] at h
      have hres' : ∀ j, j < k' →
          (mainIter (ws (i + 1 + j)) config cfgName rhost routePfx).out = .restart := by
        intro j hj
        have h := hres (j + 1) (Nat.succ_lt_succ hj)
        rwa [show i + (j + 1) = i + 1 + j from by omega] at h
      have hstep' : stepRes (mainIter (ws (i + 1 + k')) config cfgName rhost routePfx).out
          = some r := by
        rwa [show i + (k' + 1) = i + 1 + k' from by omega] at hstep
      have ih' := ih (i + 1) fuel' (Nat.lt_of_succ_lt_succ hf) hres' hstep'
      unfold mainLoop
      rw [h0]
      simp only [stepRes]
      rw [ih']

/-- C5: `main` exits with the OS error number when the config file is
missing, with the loop never starting (0 iterations); the loop exits
with code 0 in the iteration that reaches the healthy state; and it
exits with code 1 in the iteration where the client is absent and the
launch fails. -/
theorem c5_exit_codes :
    (∀ (ws : Nat → IterWorld) (cfgName rhost routePfx : List Char) (e : Int) (fuel : Nat),
      pyMain ws cfgName rhost routePfx (.error e) fuel = (.exit e, 0)) ∧
    (∀ (ws : Nat → IterWorld) (cfgName rhost routePfx : List Char)
       (lines : List (List Char)) (fuel : Nat),
      pyMain ws cfgName rhost routePfx (.ok lines) fuel =
        mainLoop ws (parse_ovpn_config lines) cfgName rhost routePfx 0 fuel) ∧
    (∀ (ws : Nat → IterWorld) (config : List (List Char × CVal))
       (cfgName rhost routePfx : List Char) (k fuel : Nat),
      k < fuel →
      (∀ j, j < k → (mainIter (ws j) config cfgName rhost routePfx).out = .restart) →
      (mainIter (ws k) config cfgName rhost routePfx).out = .healthy →
      mainLoop ws config cfgName rhost routePfx 0 fuel = (.exit 0, k + 1)) ∧
    (∀ (ws : Nat → IterWorld) (config : List (List Char × CVal))
       (cfgName rhost routePfx dev : List Char) (ev : List Event) (k fuel : Nat),
      k < fuel →
      (∀ j, j < k → (mainIter (ws j) config cfgName rhost routePfx).out = .restart) →
      get_pid_by_str cfgName (ws k).psLines = .ok none →
      dGet config ("dev".data) = some (.str dev) →
      run_vpn (ws k) dev = .ok (ev, false) →
      mainLoop ws config cfgName rhost routePfx 0 fuel = (.exit 1, k + 1)) := by
  refine ⟨fun _ _ _ _ _ _ => rfl, fun _ _ _ _ _ _ => rfl, ?_, ?_⟩
  · intro ws config cfgName rhost routePfx k fuel hf hres hk
    have hres0 : ∀ j, j < k →
        (mainIter (ws (0 + j)) config cfgName rhost routePfx).out = .restart := by
      intro j hj
      rw [Nat.zero_add]
      exact hres j hj
    have hstep : stepRes (mainIter (ws (0 + k)) config cfgName rhost routePfx).out
        = some (.exit 0) := by
      rw [Nat.zero_add, hk]
      rfl
    exact mainLoop_reaches ws config cfgName rhost routePfx (.exit 0) k 0 fuel hf hres0 hstep
  · intro ws config cfgName rhost routePfx dev ev k fuel hf hres hpid hdev hrun
    have hout : (mainIter (ws k) config cfgName rhost routePfx).out = .exitCode 1 := by
      unfold mainIter ensureRunning
      rw [hpid]
      simp [hdev, hrun]
    have hres0 : ∀ j, j < k →
        (mainIter (ws (0 + j)) config cfgName rhost routePfx).out = .restart := by
      intro j hj
      rw [Nat.zero_add]
      exact hres j hj
    have hstep : stepRes (mainIter (ws (0 + k)) config cfgName rhost routePfx).out
        = some (.exit 1) := by
      rw [Nat.zero_add, hout]
      rfl
    exact mainLoop_reaches ws config cfgName rhost routePfx (.exit 1) k 0 fuel hf hres0 hstep

/-- Witness for C5 at concrete worlds: errno 2 (ENOENT) exit with zero
iterations; exit 0 when the first iteration is healthy; exit 1 when the
first iteration's launch fails. -/
theorem c5_exit_codes_witness :
    pyMain (fun _ => c5w1) ("client.ovpn".data) ("4.2.2.2".data) [] (.error 2) 5 = (.exit 2, 0) ∧
    (0 < 5 ∧
      (mainIter c5w1 [("dev".data, CVal.str ("tun0".data))]
        ("client.ovpn".data) ("4.2.2.2".data) []).out = .healthy ∧
      mainLoop (fun _ => c5w1) [("dev".data, CVal.str ("tun0".data))]
        ("client.ovpn".data) ("4.2.2.2".data) [] 0 5 = (.exit 0, 1)) ∧
    (0 < 5 ∧
      get_pid_by_str ("client.ovpn".data) c5w2.psLines = .ok none ∧
      run_vpn c5w2 ("tun0".data) = .ok ([Event.netstart ("tun0".data)], false) ∧
      mainLoop (fun _ => c5w2) [("dev".data, CVal.str ("tun0".data))]
        ("client.ovpn".data) ("4.2.2.2".data) [] 0 5 = (.exit 1, 1)) :=
  ⟨c5_exit_codes.1 (fun _ => c5w1) ("client.ovpn".data) ("4.2.2.2".data) [] 2 5,
   ⟨by decide, by decide,
    c5_exit_codes.2.2.1 (fun _ => c5w1) [("dev".data, CVal.str ("tun0".data))]
      ("client.ovpn".data) ("4.2.2.2".data) [] 0 5 (by decide)
      (fun j hj => absurd hj (Nat.not_lt_zero j)) (by decide)⟩,
   ⟨by decide, by decide, by decide,
    c5_exit_codes.2.2.2 (fun _ => c5w2) [("dev".data, CVal.str ("tun0".data))]
      ("client.ovpn".data) ("4.2.2.2".data) [] ("tun0".data)
      [Event.netstart ("tun0".data)] 0 5 (by decide)
      (fun j hj => absurd hj (Nat.not_lt_zero j)) (by decide) (by decide) (by decide)⟩⟩
